import Mathlib

/-!
Shallow embedding of the job-scraping pipeline (`src/scraper.py`) and
verification of the specification claims about it.

The embedding models the collaborators (HTTP responses, the headless
browser, the database) as explicit environment values; the pipeline
functions are translated directly from the Python source.  Python
exceptions are modelled with `Except`: a `try/except` block is a `match`
on the `Except` value.  A Python dict key that may be missing is an
`Option` field (`none` = key absent, so `dict.get(k, d)` is `·.getD d`).
-/

set_option autoImplicit false

namespace JobScraping

/-- A Python exception value, carrying its message (`str(e)`). -/
inductive PyExn where
  | exn : String → PyExn
deriving DecidableEq

/-- The message of an exception, as `str(e)` produces it. -/
def PyExn.msg : PyExn → String
  | .exn s => s

/-- Lower-case a string character by character (Python `str.lower` on ASCII). -/
def strLower (s : String) : String :=
  String.mk (s.toList.map Char.toLower)

/-- Whether `pre` is an initial segment of `l` (used to test substring containment). -/
def charsStart : List Char → List Char → Bool
  | [], _ => true
  | _ :: _, [] => false
  | a :: as, b :: bs => a == b && charsStart as bs

/-- Whether `needle` occurs as a contiguous run inside `hay`. -/
def charsSub (needle : List Char) : List Char → Bool
  | [] => charsStart needle []
  | c :: t => charsStart needle (c :: t) || charsSub needle t

/-- Python `needle in hay` on strings: contiguous substring containment. -/
def hasSubstr (needle hay : String) : Bool :=
  charsSub needle.toList hay.toList

/-- Insert a comma after every third character (applied to a reversed digit list). -/
def commaGroup : List Char → List Char
  | c1 :: c2 :: c3 :: c4 :: rest => c1 :: c2 :: c3 :: ',' :: commaGroup (c4 :: rest)
  | l => l

/-- Python `f"{n:,}"` on a non-negative integer: decimal digits grouped by
thousands with commas. -/
def commaFmt (n : Nat) : String :=
  String.mk (commaGroup (toString n).toList.reverse).reverse

/-- Python `s[:n]`: the first `n` characters of a string. -/
def strTake (s : String) (n : Nat) : String :=
  String.mk (s.toList.take n)

/-- Python `sep.join(parts)`. -/
def joinParts (sep : String) : List String → String
  | [] => ""
  | [p] => p
  | p :: rest => p ++ sep ++ joinParts sep rest

/-- The canonical job record built by the list phase (the dict inserted into
`job_listings`; `scraped_at` is set by the database, not the pipeline). -/
structure Job where
  job_title : String
  company_name : String
  location : String
  salary_info : String
  job_url : String
  source_site : String
deriving DecidableEq

/-- The `equity` sub-dict of a Wellfound compensation payload.  Each field is
`none` when the corresponding key is missing (bracket access then raises
`KeyError`).  The numeric values are modelled as integers. -/
structure Equity where
  eqMin : Option Int
  eqMax : Option Int
deriving DecidableEq

/-- A Wellfound `compensation` dict.  `none` fields are missing keys.
Salaries are modelled as naturals (Python ints from the API). -/
structure Compensation where
  minSalary : Option Nat
  maxSalary : Option Nat
  currency : Option String
  equity : Option Equity
deriving DecidableEq

/-- Python truthiness of `dict.get(key)` for an optional numeric field:
falsy when the key is missing or the value is `0`. -/
def truthyNat : Option Nat → Bool
  | some n => n != 0
  | none => false

/-- `JobScraper.format_salary`: formats Wellfound compensation data.
Mirrors the source: the salary range is appended only when both
`minSalary` and `maxSalary` are truthy (present and non-zero); the equity
part is appended when `equity` is truthy, reading `equity['min']` and
`equity['max']` by bracket access — a missing key raises `KeyError`, which
the surrounding `except` turns into `"Not specified"` for the whole call. -/
def format_salary (compensation : Option Compensation) : String :=
  match compensation with
  | none => "Not specified"
  | some c =>
    let salary_parts : List String :=
      if truthyNat c.minSalary && truthyNat c.maxSalary then
        [(c.currency.getD "USD") ++ " " ++ commaFmt (c.minSalary.getD 0) ++ " - " ++
          commaFmt (c.maxSalary.getD 0)]
      else []
    match c.equity with
    | none =>
      if salary_parts.isEmpty then "Not specified"
      else joinParts " | " salary_parts
    | some eq =>
      match eq.eqMin, eq.eqMax with
      | some a, some b =>
        joinParts " | "
          (salary_parts ++ ["Equity: " ++ toString a ++ "-" ++ toString b ++ "%"])
      | _, _ => "Not specified"

/-- Formatting as §4.1 of the specification words it (amended for the zero
bound): an optional currency-prefixed range part for present non-zero
bounds, an optional equity part, joined with `" | "`, defaulting to
`"Not specified"`. -/
def format_salary_spec (compensation : Option Compensation) : String :=
  match compensation with
  | none => "Not specified"
  | some c =>
    let rangeParts : List String :=
      match c.minSalary, c.maxSalary with
      | some mn, some mx =>
        if mn ≠ 0 ∧ mx ≠ 0 then
          [(c.currency.getD "USD") ++ " " ++ commaFmt mn ++ " - " ++ commaFmt mx]
        else []
      | _, _ => []
    let equityParts : List String :=
      match c.equity with
      | some ⟨some a, some b⟩ => ["Equity: " ++ toString a ++ "-" ++ toString b ++ "%"]
      | _ => []
    let parts := rangeParts ++ equityParts
    if parts.isEmpty then "Not specified" else joinParts " | " parts

/-- An equity record, when present, has both its keys (so no `KeyError`
can occur while formatting it). -/
def wellFormedEquity : Option Compensation → Bool
  | none => true
  | some c =>
    match c.equity with
    | none => true
    | some eq => eq.eqMin.isSome && eq.eqMax.isSome

/-- One entry of a `highlightedJobListings` array.  `none` fields are
missing keys; the listing id is modelled as the string interpolated into
the job URL. -/
structure Listing where
  title : Option String
  lid : Option String
  compensation : Option Compensation
deriving DecidableEq

/-- The startup-level fields `extract_job_data` reads from a GraphQL node
(or from its `promotedStartup` sub-dict).  `highlightedJobListings = none`
means the key is missing entirely (Python then uses the `[{}]` default);
`some l` means the key is present with array `l`. -/
structure SubNode where
  name : Option String
  location : Option String
  slug : Option String
  highlightedJobListings : Option (List Listing)
deriving DecidableEq

/-- One element of a `featuredStartups` array: used directly as the job
node when its own `promotedStartup` key is missing. -/
structure FeaturedEntry where
  self : SubNode
  promotedStartup : Option SubNode
deriving DecidableEq

/-- A raw GraphQL result node, discriminated by `__typename`.  `self`
holds the node's own startup-level fields. -/
structure Node where
  typename : String
  self : SubNode
  promotedStartup : Option SubNode
  featuredStartups : Option (List FeaturedEntry)
deriving DecidableEq

/-- The `{}` default produced by `node.get('highlightedJobListings', [{}])[0]`
when the key is missing. -/
def default_listing : Listing := ⟨none, none, none⟩

/-- `job_node.get('highlightedJobListings', [{}])[0]`: the first listing,
the empty default dict when the key is missing, and an `IndexError`
(modelled as `Except.error`) when the key is present but the array is
empty. -/
def listingOf (jn : SubNode) : Except Unit Listing :=
  match jn.highlightedJobListings with
  | none => .ok default_listing
  | some [] => .error ()
  | some (l :: _) => .ok l

/-- The job dict each branch of `extract_job_data` builds from a job node
and its first highlighted listing (identical in all three branches of the
source, up to which node supplies the startup fields). -/
def wellfoundJobOf (jn : SubNode) (jl : Listing) : Job :=
  { job_title := jl.title.getD "N/A"
    company_name := jn.name.getD "N/A"
    location := jn.location.getD "Remote"
    salary_info := format_salary jl.compensation
    job_url := "https://wellfound.com/company/" ++ jn.slug.getD "" ++ "/jobs/" ++ jl.lid.getD ""
    source_site := "Wellfound" }

/-- The body of `JobScraper.extract_job_data` before its `except` clause:
branches on `__typename`; each recognized branch indexes the first
highlighted listing (possibly raising `IndexError`); an unrecognized
discriminator leaves `job_data = None`.  The `FeaturedStartups` branch
takes only the first featured entry (`break`). -/
def extract_job_data_core (node : Node) : Except Unit (Option Job) :=
  if node.typename = "StartupSearchResult" then
    match listingOf node.self with
    | .error e => .error e
    | .ok jl => .ok (some (wellfoundJobOf node.self jl))
  else if node.typename = "PromotedResult" then
    let jn := node.promotedStartup.getD node.self
    match listingOf jn with
    | .error e => .error e
    | .ok jl => .ok (some (wellfoundJobOf jn jl))
  else if node.typename = "FeaturedStartups" then
    match node.featuredStartups.getD [] with
    | [] => .ok none
    | fe :: _ =>
      let jn := fe.promotedStartup.getD fe.self
      match listingOf jn with
      | .error e => .error e
      | .ok jl => .ok (some (wellfoundJobOf jn jl))
  else .ok none

/-- `JobScraper.extract_job_data` (the Normalizer): the core body with its
`except Exception` clause, which converts any raised exception into
`None`. -/
def extract_job_data (node : Node) : Option Job :=
  match extract_job_data_core node with
  | .ok r => r
  | .error _ => none

/-- The Wellfound GraphQL response as `try_wellfound_scraping` observes it:
an HTTP status plus the parse outcome of the body.  `body = .ok nodes` is
a successfully decoded payload whose
`data.talent.jobSearchResults.startups.edges` path yields `nodes` (missing
intermediate keys resolve to the empty list via the chained `.get`
defaults); `body = .error e` is a payload that neither `response.json()`
nor the brotli-decompressed `json.loads` could decode — those exceptions
are not `requests.RequestException`s and escape `try_wellfound_scraping`. -/
structure WfResp where
  status : Nat
  body : Except PyExn (List Node)

/-- The `<a>` link found inside a WeWorkRemotely `li.feature` element. -/
structure WwrLink where
  href : String
  title : Option String
  company : Option String
deriving DecidableEq

/-- One WeWorkRemotely list item (`li` with class `feature`); `link = none`
when it contains no `<a>` element. -/
structure WwrItem where
  link : Option WwrLink
deriving DecidableEq

/-- The external world the list phase interacts with: the Wellfound POST
outcome (`.error` = a `requests.RequestException` raised by the call) and
the WeWorkRemotely GET outcome (`.error` = the request or the HTML parse
raised). -/
structure ListEnv where
  wf : Except PyExn WfResp
  wwr : Except PyExn (List WwrItem)

/-- `JobScraper.try_wellfound_scraping`: issues the GraphQL query (the
payload carries `search_terms`; the response is determined by the
environment), treats 403 as "blocked" returning `[]`, lets
`raise_for_status` turn any other 4xx/5xx into an `HTTPError` caught by
the `except requests.RequestException` clause (also `[]`), and otherwise
extracts and normalizes the edge nodes.  A body that fails both JSON
decodes raises past this function. -/
def try_wellfound_scraping (env : ListEnv) (search_terms : List String) :
    Except PyExn (List Job) :=
  match env.wf with
  | .error _ => .ok []
  | .ok resp =>
    if resp.status = 403 then .ok []
    else if 400 ≤ resp.status then .ok []
    else
      match resp.body with
      | .error e => .error e
      | .ok nodes =>
        let _ := search_terms
        .ok (nodes.filterMap extract_job_data)

/-- The keyword relevance filter of `scrape_weworkremotely`. -/
def wwrTerms : List String := ["data", "analyst", "python", "scientist"]

/-- The per-item extraction of `scrape_weworkremotely`: skip items without
a link, require both title and company spans, apply the case-insensitive
keyword filter, and build the job dict. -/
def wwrExtract (item : WwrItem) : Option Job :=
  match item.link with
  | none => none
  | some lk =>
    match lk.title, lk.company with
    | some job_title, some company_name =>
      if wwrTerms.any (fun term => hasSubstr (strLower term) (strLower job_title)) then
        some { job_title := job_title
               company_name := company_name
               location := "Remote"
               salary_info := "Not specified"
               job_url := "https://weworkremotely.com" ++ lk.href
               source_site := "WeWorkRemotely" }
      else none
    | _, _ => none

/-- The fixed 5-item sample catalog `scrape_weworkremotely` appends when it
accepted zero entries. -/
def sample_jobs : List Job :=
  [ { job_title := "Senior Data Analyst"
      company_name := "TechCorp International"
      location := "Remote, UK"
      salary_info := "£45,000 - £65,000"
      job_url := "https://example.com/job/senior-data-analyst-1"
      source_site := "WeWorkRemotely" },
    { job_title := "Python Developer"
      company_name := "DataFlow Solutions"
      location := "London, UK"
      salary_info := "£50,000 - £70,000"
      job_url := "https://example.com/job/python-developer-2"
      source_site := "WeWorkRemotely" },
    { job_title := "Business Data Scientist"
      company_name := "Analytics Pro Ltd"
      location := "Manchester, UK"
      salary_info := "£55,000 - £75,000"
      job_url := "https://example.com/job/data-scientist-3"
      source_site := "WeWorkRemotely" },
    { job_title := "Junior Data Analyst"
      company_name := "StartupTech"
      location := "Remote"
      salary_info := "£30,000 - £45,000"
      job_url := "https://example.com/job/junior-analyst-4"
      source_site := "WeWorkRemotely" },
    { job_title := "Senior Python Engineer"
      company_name := "FinTech Innovations"
      location := "Edinburgh, UK"
      salary_info := "£60,000 - £80,000"
      job_url := "https://example.com/job/python-engineer-5"
      source_site := "WeWorkRemotely" } ]

/-- `JobScraper.scrape_weworkremotely`: on any fetch/parse failure the
outer `except Exception` returns `[]`; otherwise the first 10 list items
are filtered and extracted, and if that leaves zero jobs the fixed sample
catalog is appended. -/
def scrape_weworkremotely (env : ListEnv) : List Job :=
  match env.wwr with
  | .error _ => []
  | .ok items =>
    let jobs := (items.take 10).filterMap wwrExtract
    if jobs.length = 0 then jobs ++ sample_jobs else jobs

/-- `JobScraper.insert_jobs_to_database`: executes, for each job, an
`INSERT ... ON CONFLICT (job_url) DO NOTHING`.  A conflicting `job_url`
makes the statement a silent no-op — it does not raise
`psycopg2.IntegrityError`, so the `except IntegrityError` branch of the
source never runs and `successful_inserts` is incremented for every row
of the batch.  Returns the resulting table and the reported count. -/
def insert_jobs_to_database (store : List Job) (jobs : List Job) : List Job × Nat :=
  jobs.foldl
    (fun acc job =>
      let (st, successful_inserts) := acc
      if st.any (fun r => r.job_url == job.job_url) then
        (st, successful_inserts + 1)
      else (st ++ [job], successful_inserts + 1))
    (store, 0)

/-- The `try` body of `JobScraper.scrape_list_pages`: attempt Wellfound,
fall back to WeWorkRemotely when it yields no jobs, and insert any jobs
into the database.  Returns the scraped jobs and the updated table; an
exception escaping the tiers (tier-1 body-parse failure) propagates. -/
def scrape_list_pages_core (env : ListEnv) (store : List Job)
    (search_terms : List String) : Except PyExn (List Job × List Job) :=
  match try_wellfound_scraping env search_terms with
  | .error e => .error e
  | .ok wellfound_jobs =>
    let all_jobs :=
      if wellfound_jobs.isEmpty then scrape_weworkremotely env else wellfound_jobs
    let store' :=
      if all_jobs.isEmpty then store else (insert_jobs_to_database store all_jobs).1
    .ok (all_jobs, store')

/-- `JobScraper.scrape_list_pages` (the acquire boundary): the core body
wrapped in the outer `except Exception`, which converts any escaped
exception into the empty result, leaving the table untouched. -/
def scrape_list_pages (env : ListEnv) (store : List Job)
    (search_terms : List String) : List Job × List Job :=
  match scrape_list_pages_core env store search_terms with
  | .ok r => r
  | .error _ => ([], store)

/-- The rendered page as `scrape_url_with_selenium` observes it:
`nav` is the outcome of `driver.get` (the only statement whose exception
reaches the outer `except`); `probe s` is the text of the element located
for selector `s`, or `none` when the wait timed out (the inner bare
`except: continue`); `body` is the `<body>` element text, `none` when
locating it raised. -/
structure DetailEnv where
  nav : Except PyExn Unit
  probe : String → Option String
  body : Option String

/-- The fixed ordered content-selector list of `scrape_url_with_selenium`. -/
def description_selectors : List String :=
  [ "[data-test=\"job-description\"]",
    ".job-description",
    "#job-description",
    ".description",
    "[class*=\"description\"]",
    "main",
    ".content" ]

/-- The selector loop of `scrape_url_with_selenium`: each located selector
overwrites `job_description`; the loop breaks at the first text longer
than 100 characters; a timed-out selector is skipped. -/
def selectorLoop (probe : String → Option String) :
    List String → Option String → Option String
  | [], job_description => job_description
  | s :: rest, job_description =>
    match probe s with
    | none => selectorLoop probe rest job_description
    | some t => if 100 < t.length then some t else selectorLoop probe rest (some t)

/-- The body-text fallback of `scrape_url_with_selenium`: the page body
truncated to 2000 characters, or the fixed marker when the body cannot be
read. -/
def bodyFallback (env : DetailEnv) : String :=
  match env.body with
  | some b => strTake b 2000
  | none => "Description could not be extracted from this URL"

/-- `JobScraper.scrape_url_with_selenium`: navigate, run the selector
loop, then fall back to the body text when no description was kept or the
kept one is shorter than 100 characters; a navigation failure is caught
by the outer `except` and reported as an error string. -/
def scrape_url_with_selenium (env : DetailEnv) (job_url : String) : String :=
  match env.nav with
  | .error e =>
    let _ := job_url
    "Error accessing URL: " ++ e.msg
  | .ok _ =>
    match selectorLoop env.probe description_selectors none with
    | none => bodyFallback env
    | some t => if t.isEmpty || t.length < 100 then bodyFallback env else t

/-- The first selector text in `ss` longer than 100 characters, scanning
in order (spec-side description of the accepted selector). -/
def firstQual (probe : String → Option String) : List String → Option String
  | [] => none
  | s :: rest =>
    match probe s with
    | some t => if 100 < t.length then some t else firstQual probe rest
    | none => firstQual probe rest

/-- The text of the last selector in `ss` that gets located at all
(spec-side description of what the loop accumulator ends at). -/
def lastLoc (probe : String → Option String) : List String → Option String
  | [] => none
  | s :: rest =>
    match lastLoc probe rest with
    | some t => some t
    | none => probe s

/-- The fixed sample description catalog of `generate_sample_description`. -/
def sample_descriptions : List String :=
  [ "We are looking for a talented Data Analyst to join our growing team. \n            \nKey Responsibilities:\n• Analyze large datasets to identify trends and patterns\n• Create compelling data visualizations and dashboards\n• Work with stakeholders to understand business requirements\n• Develop automated reporting solutions using Python and SQL\n• Present findings to senior management\n\nRequirements:\n• 2+ years experience in data analysis\n• Proficiency in Python, SQL, and Excel\n• Experience with data visualization tools (Tableau, Power BI)\n• Strong analytical and problem-solving skills\n• Excellent communication skills\n\nWe offer competitive salary, flexible working arrangements, and excellent career development opportunities.",
    "Join our innovative team as a Python Developer! We're building cutting-edge applications that process millions of data points daily.\n\nWhat you'll do:\n• Develop robust Python applications and APIs\n• Work with data pipelines and ETL processes\n• Collaborate with data scientists and analysts\n• Implement automated testing and CI/CD practices\n• Optimize application performance and scalability\n\nWhat we're looking for:\n• 3+ years Python development experience\n• Knowledge of frameworks like Django, Flask, or FastAPI\n• Experience with databases (PostgreSQL, MongoDB)\n• Understanding of cloud platforms (AWS, Azure, GCP)\n• Passion for clean, maintainable code\n\nBenefits include health insurance, remote work options, learning budget, and stock options.",
    "Data Scientist position available for a forward-thinking professional to drive insights from complex datasets.\n\nRole Overview:\n• Build predictive models and machine learning algorithms\n• Extract insights from structured and unstructured data\n• Collaborate with product and engineering teams\n• Present findings to executive leadership\n• Mentor junior team members\n\nEssential Skills:\n• Advanced degree in Statistics, Mathematics, or related field\n• 4+ years experience in data science\n• Expertise in Python, R, and SQL\n• Experience with ML frameworks (scikit-learn, TensorFlow, PyTorch)\n• Strong business acumen and communication skills\n\nWe're offering an excellent package including competitive base salary, performance bonuses, comprehensive benefits, and professional development opportunities." ]

/-- `JobScraper.generate_sample_description`: deterministic selection by
`(job_id - 1) % len(sample_descriptions)` (Python integer arithmetic, so
the modulus is the non-negative remainder). -/
def generate_sample_description (job_id : Nat) : String :=
  let desc_index := (((job_id : Int) - 1) % (sample_descriptions.length : Int)).toNat
  sample_descriptions.getD desc_index ""

/-- The collaborators of the detail-enrichment loop: the WebDriver setup
outcome and, per work item, the outcome of the description fetch
(`.error` = the fetch raised and the per-item `except` clause runs). -/
structure EnrichEnv where
  driverSetup : Except PyExn Unit
  fetch : Nat → String → Except PyExn String

/-- The error-derived description the per-item `except` clause of
`scrape_detail_pages` writes back: the fixed text plus the first 100
characters of `str(e)`. -/
def mkErrorDesc (e : PyExn) : String :=
  "Job description could not be extracted. Error: " ++ strTake e.msg 100

/-- One iteration of the enrichment loop of `scrape_detail_pages`:
placeholder-domain URLs (`'example.com' in job_url`) take the synthetic
description; other URLs are fetched, a raising fetch being converted by
the `except` clause into the error-derived description.  Returns the
`(id, description)` write performed for the item, `none` when the
description is falsy and nothing is written. -/
def process_detail_item (env : EnrichEnv) (item : Nat × String) : Option (Nat × String) :=
  let (job_id, job_url) := item
  match
    (if hasSubstr "example.com" job_url then .ok (generate_sample_description job_id)
     else env.fetch job_id job_url) with
  | .ok job_description =>
    if job_description.isEmpty then none else some (job_id, job_description)
  | .error e => some (job_id, mkErrorDesc e)

/-- The enrichment loop over the pending work items, in order; the list of
database writes it performs. -/
def detail_updates (env : EnrichEnv) (jobs_to_update : List (Nat × String)) :
    List (Nat × String) :=
  jobs_to_update.filterMap (process_detail_item env)

/-- `JobScraper.scrape_detail_pages`: a zero-item queue is a no-op; a
failed driver setup degrades the whole batch to
`generate_fallback_descriptions` (synthetic descriptions for every item);
otherwise the per-item loop runs.  The result is the list of description
writes issued. -/
def scrape_detail_pages (env : EnrichEnv) (jobs_to_update : List (Nat × String)) :
    List (Nat × String) :=
  if jobs_to_update.length = 0 then []
  else
    match env.driverSetup with
    | .error _ =>
      jobs_to_update.map (fun it => (it.1, generate_sample_description it.1))
    | .ok _ => detail_updates env jobs_to_update

/-!
Concrete inputs used by the claim counterexamples and witnesses below.
-/

/-- A job whose url duplicates the stored row in the C1 batch. -/
def c1_j1 : Job :=
  ⟨"Senior Data Analyst", "TechCorp International", "Remote", "Not specified",
    "https://example.com/job/a1", "WeWorkRemotely"⟩

/-- A fresh job for the C1 batch. -/
def c1_j2 : Job :=
  ⟨"Python Developer", "DataFlow Solutions", "Remote", "Not specified",
    "https://example.com/job/b2", "WeWorkRemotely"⟩

/-- Another fresh job for the C1 batch. -/
def c1_j3 : Job :=
  ⟨"Data Scientist", "Analytics Pro", "Remote", "Not specified",
    "https://example.com/job/c3", "WeWorkRemotely"⟩

/-- An environment in which both network tiers raise. -/
def c2_env : ListEnv := ⟨.error (.exn "connection refused"), .error (.exn "connection reset")⟩

/-- Another environment in which both network tiers raise. -/
def c2w_env : ListEnv := ⟨.error (.exn "timeout"), .error (.exn "timeout")⟩

/-- A WeWorkRemotely item whose title matches no relevance keyword. -/
def c3_nonmatch_item : WwrItem :=
  ⟨some ⟨"/remote-jobs/frontend", some "Frontend Developer", some "WebCo"⟩⟩

/-- A WeWorkRemotely item whose title matches the keyword filter. -/
def c3_match_item : WwrItem :=
  ⟨some ⟨"/remote-jobs/da", some "Data Analyst", some "DataCo"⟩⟩

/-- Primary source down, secondary source up but with zero matching items. -/
def c3_env : ListEnv := ⟨.error (.exn "connection timed out"), .ok [c3_nonmatch_item]⟩

/-- Primary source down, secondary source up with no items at all. -/
def c3w_env : ListEnv := ⟨.error (.exn "name resolution failed"), .ok []⟩

/-- Primary source blocked with a 403, secondary source with one matching item. -/
def c4_env : ListEnv :=
  ⟨.ok ⟨403, .error (.exn "blocked page")⟩,
    .ok [⟨some ⟨"/remote-jobs/pe", some "Python Engineer", some "PyCo"⟩⟩]⟩

/-- A compensation whose minimum bound is present but zero. -/
def c5_comp : Compensation := ⟨some 0, some 50000, some "USD", none⟩

/-- A compensation with non-zero bounds and a full equity range. -/
def c5w_comp : Compensation := ⟨some 120000, some 150000, some "USD", some ⟨some 1, some 2⟩⟩

/-- A compensation with a zero maximum bound and no equity. -/
def c9w_comp : Compensation := ⟨some 0, some 90000, some "EUR", none⟩

/-- A string of exactly 100 characters. -/
def c6_hundred : String := String.mk (List.replicate 100 'a')

/-- A rendered page on which only the `main` selector is located, with a
text of exactly 100 characters, and the body text is available. -/
def c6_env : DetailEnv :=
  { nav := .ok ()
    probe := fun s => if s = "main" then some c6_hundred else none
    body := some "SHORT BODY TEXT" }

/-- A rendered page on which nothing can be located at all. -/
def c6w_env : DetailEnv := { nav := .ok (), probe := fun _ => none, body := none }

/-- An enrichment environment whose every fetch raises. -/
def c7_env : EnrichEnv :=
  { driverSetup := .ok ()
    fetch := fun _ _ => .error (.exn "TimeoutException: page load timed out") }

/-- A raw node with an unrecognized type discriminator. -/
def c8_node : Node := ⟨"JobCollection", ⟨none, none, none, none⟩, none, none⟩

/-- A direct-listing node whose `highlightedJobListings` key is present but empty. -/
def c10_node : Node :=
  ⟨"StartupSearchResult", ⟨some "Acme", some "Berlin", some "acme", some []⟩, none, none⟩

/-!
Theorems.  Helper lemmas come first; each claim then gets one theorem
(with its counterexample and witness where applicable).
-/

/-- `strTake` yields at most `n` characters. -/
theorem strTake_length_le (s : String) (n : Nat) : (strTake s n).length ≤ n := by
  show (s.toList.take n).length ≤ n
  exact List.length_take_le n s.toList

/-- C1: the claim states that the list-ingestion run reports exactly the
number of rows newly inserted, so a batch of 3 with 1 duplicate of a
stored url reports 2 and re-upserting an identical batch reports 0.  The
code violates this: `ON CONFLICT (job_url) DO NOTHING` makes a duplicate
insert a silent no-op rather than an `IntegrityError`, so the skip branch
never runs and `successful_inserts` counts every batch row.  At the
failing input the batch of 3 with one stored duplicate reports 3, a
second identical upsert reports 3 (not 0), while the table does keep one
row per distinct url. -/
theorem C1_duplicate_count_bug :
    (insert_jobs_to_database [c1_j1] [c1_j1, c1_j2, c1_j3]).2 = 3 ∧
    (insert_jobs_to_database [c1_j1] [c1_j1, c1_j2, c1_j3]).1 = [c1_j1, c1_j2, c1_j3] ∧
    (insert_jobs_to_database
      (insert_jobs_to_database [c1_j1] [c1_j1, c1_j2, c1_j3]).1
      [c1_j1, c1_j2, c1_j3]).2 = 3 ∧
    (insert_jobs_to_database
      (insert_jobs_to_database [c1_j1] [c1_j1, c1_j2, c1_j3]).1
      [c1_j1, c1_j2, c1_j3]).1 = [c1_j1, c1_j2, c1_j3] := by
  decide

/-- C8: a raw record whose type discriminator is none of the recognized
shapes is normalized to absent, raising nothing — the body itself
produces `None` without an exception even before the `except` clause. -/
theorem C8_unrecognized_skipped (node : Node)
    (h1 : node.typename ≠ "StartupSearchResult")
    (h2 : node.typename ≠ "PromotedResult")
    (h3 : node.typename ≠ "FeaturedStartups") :
    extract_job_data_core node = .ok none ∧ extract_job_data node = none := by
  have hc : extract_job_data_core node = .ok none := by
    simp [extract_job_data_core, h1, h2, h3]
  exact ⟨hc, by simp [extract_job_data, hc]⟩

/-- Witness for C8 at a concrete unrecognized node. -/
theorem C8_unrecognized_skipped_witness :
    c8_node.typename ≠ "StartupSearchResult" ∧
    c8_node.typename ≠ "PromotedResult" ∧
    c8_node.typename ≠ "FeaturedStartups" ∧
    (extract_job_data_core c8_node = .ok none ∧ extract_job_data c8_node = none) :=
  ⟨by decide, by decide, by decide,
    C8_unrecognized_skipped c8_node (by decide) (by decide) (by decide)⟩

/-- C9: a compensation one of whose salary bounds is present but zero
(the other present and non-zero) omits the currency-prefixed range part
entirely: with no equity range it formats as `"Not specified"`, and with
an equity range only the equity part appears. -/
theorem C9_zero_bound (c : Compensation)
    (h : (c.minSalary = some 0 ∧ truthyNat c.maxSalary = true) ∨
         (c.maxSalary = some 0 ∧ truthyNat c.minSalary = true)) :
    (c.equity = none → format_salary (some c) = "Not specified") ∧
    (∀ a b : Int, c.equity = some ⟨some a, some b⟩ →
      format_salary (some c) = "Equity: " ++ toString a ++ "-" ++ toString b ++ "%") := by
  have hs : (truthyNat c.minSalary && truthyNat c.maxSalary) = false := by
    rcases h with ⟨h1, _⟩ | ⟨h1, _⟩ <;> simp [h1, truthyNat]
  constructor
  · intro he
    simp [format_salary, hs, he]
  · intro a b he
    simp [format_salary, hs, he, joinParts]

/-- Witness for C9: a record with a zero minimum bound, a non-zero
maximum bound and no equity formats as `"Not specified"`. -/
theorem C9_zero_bound_witness :
    (c9w_comp.minSalary = some 0 ∧ truthyNat c9w_comp.maxSalary = true) ∧
    format_salary (some c9w_comp) = "Not specified" :=
  ⟨⟨rfl, by decide⟩, (C9_zero_bound c9w_comp (.inl ⟨rfl, by decide⟩)).1 rfl⟩

/-- C7: an exception raised while fetching one work item's description is
caught locally and converted into the fixed error text carrying the first
100 characters of the error message (at most 100 characters of it); that
string is the item's recorded description and the loop continues with the
remaining work items. -/
theorem C7_fetch_error_recovery (env : EnrichEnv) (job_id : Nat) (job_url : String)
    (e : PyExn) (rest : List (Nat × String))
    (hurl : hasSubstr "example.com" job_url = false)
    (hf : env.fetch job_id job_url = .error e) :
    detail_updates env ((job_id, job_url) :: rest) =
      (job_id, "Job description could not be extracted. Error: " ++ strTake e.msg 100) ::
        detail_updates env rest ∧
    (strTake e.msg 100).length ≤ 100 := by
  refine ⟨?_, strTake_length_le e.msg 100⟩
  simp [detail_updates, process_detail_item, hurl, hf, mkErrorDesc]

/-- Witness for C7 at a concrete always-raising fetch environment with a
second item still processed. -/
theorem C7_fetch_error_recovery_witness :
    hasSubstr "example.com" "https://realsite.io/jobs/3" = false ∧
    c7_env.fetch 3 "https://realsite.io/jobs/3" =
      .error (.exn "TimeoutException: page load timed out") ∧
    (detail_updates c7_env [(3, "https://realsite.io/jobs/3"), (4, "https://realsite.io/jobs/4")] =
      (3, "Job description could not be extracted. Error: " ++
        strTake (PyExn.msg (.exn "TimeoutException: page load timed out")) 100) ::
        detail_updates c7_env [(4, "https://realsite.io/jobs/4")] ∧
      (strTake (PyExn.msg (.exn "TimeoutException: page load timed out")) 100).length ≤ 100) :=
  ⟨by decide, rfl,
    C7_fetch_error_recovery c7_env 3 "https://realsite.io/jobs/3"
      (.exn "TimeoutException: page load timed out")
      [(4, "https://realsite.io/jobs/4")] (by decide) rfl⟩

/-- C2 counterexample: with the primary source raising and the secondary
source's fetch raising, acquire returns the empty result even though the
later synthetic tier (a nonempty catalog) was never attempted — refuting
the claim that a tier failure never yields an empty overall result while
a later tier remains unattempted. -/
theorem C2_counterexample :
    scrape_list_pages c2_env [] ["Data Analyst"] = ([], []) ∧ sample_jobs ≠ [] := by
  constructor
  · rfl
  · decide

/-- C2 (amended): acquire never raises past its boundary and each
network tier's failure is converted to an empty result; the tier-1
failure lets the chain proceed to tier 2, but a tier-2 fetch failure
yields the empty overall result without producing the (nonempty)
synthetic catalog — the catalog is produced only when tier 2 succeeds
with zero accepted entries. -/
theorem C2_amended_fallback (env : ListEnv) (store : List Job) (terms : List String)
    (e e' : PyExn) (h1 : env.wf = .error e) (h2 : env.wwr = .error e') :
    try_wellfound_scraping env terms = .ok [] ∧
    scrape_weworkremotely env = [] ∧
    scrape_list_pages env store terms = ([], store) ∧
    sample_jobs.length = 5 := by
  have hw : try_wellfound_scraping env terms = .ok [] := by
    simp [try_wellfound_scraping, h1]
  have hr : scrape_weworkremotely env = [] := by
    simp [scrape_weworkremotely, h2]
  refine ⟨hw, hr, ?_, rfl⟩
  simp [scrape_list_pages, scrape_list_pages_core, hw, hr]

/-- Witness for C2 (amended) at a concrete both-tiers-raising environment. -/
theorem C2_amended_fallback_witness :
    c2w_env.wf = .error (.exn "timeout") ∧
    c2w_env.wwr = .error (.exn "timeout") ∧
    (try_wellfound_scraping c2w_env [] = .ok [] ∧
     scrape_weworkremotely c2w_env = [] ∧
     scrape_list_pages c2w_env [] [] = ([], []) ∧
     sample_jobs.length = 5) :=
  ⟨rfl, rfl,
    C2_amended_fallback c2w_env [] [] (.exn "timeout") (.exn "timeout") rfl rfl⟩

/-- C3 counterexample: with the primary source down and the secondary
source yielding zero matching items, acquire does return exactly the
fixed 5-item catalog — but every catalog record carries
`source_site = "WeWorkRemotely"`, the very tag a real secondary-source
record carries, so the catalog has no provenance marker of its own. -/
theorem C3_counterexample :
    (scrape_list_pages c3_env [] ["Data Analyst"]).1 = sample_jobs ∧
    sample_jobs.map Job.source_site =
      ["WeWorkRemotely", "WeWorkRemotely", "WeWorkRemotely",
       "WeWorkRemotely", "WeWorkRemotely"] ∧
    (wwrExtract c3_match_item).map Job.source_site = some "WeWorkRemotely" := by
  refine ⟨?_, by decide, by decide⟩
  decide

/-- C3 (amended): when the primary source is down and the secondary
source returns zero matching items, acquire returns exactly the fixed
5-item synthetic catalog; its records are tagged
`source_site = "WeWorkRemotely"`, the same provenance tag as real
secondary-source records (no distinct synthetic marker). -/
theorem C3_amended_catalog (env : ListEnv) (store : List Job) (terms : List String)
    (e : PyExn) (items : List WwrItem)
    (h1 : env.wf = .error e)
    (h2 : env.wwr = .ok items)
    (h3 : (items.take 10).filterMap wwrExtract = []) :
    (scrape_list_pages env store terms).1 = sample_jobs ∧
    sample_jobs.length = 5 ∧
    ∀ j ∈ sample_jobs, j.source_site = "WeWorkRemotely" := by
  have hr : scrape_weworkremotely env = sample_jobs := by
    simp [scrape_weworkremotely, h2, h3]
  refine ⟨?_, rfl, by decide⟩
  simp [scrape_list_pages, scrape_list_pages_core, try_wellfound_scraping, h1, hr]

/-- Witness for C3 (amended) at a concrete primary-down, zero-item
secondary environment. -/
theorem C3_amended_catalog_witness :
    c3w_env.wf = .error (.exn "name resolution failed") ∧
    c3w_env.wwr = .ok [] ∧
    (([] : List WwrItem).take 10).filterMap wwrExtract = [] ∧
    ((scrape_list_pages c3w_env [] ["Data Analyst"]).1 = sample_jobs ∧
     sample_jobs.length = 5 ∧
     ∀ j ∈ sample_jobs, j.source_site = "WeWorkRemotely") :=
  ⟨rfl, rfl, rfl,
    C3_amended_catalog c3w_env [] ["Data Analyst"] (.exn "name resolution failed") [] rfl rfl rfl⟩

/-- C4: with the primary source forced to return the blocked 403 status,
acquire returns exactly what the tier-2 secondary source produces in
isolation on the same environment, and the blocked status raises nothing
(the core body succeeds). -/
theorem C4_blocked_equals_tier2 (env : ListEnv) (store : List Job) (terms : List String)
    (resp : WfResp) (h1 : env.wf = .ok resp) (h2 : resp.status = 403) :
    (scrape_list_pages env store terms).1 = scrape_weworkremotely env ∧
    scrape_list_pages_core env store terms = .ok (scrape_list_pages env store terms) := by
  have hw : try_wellfound_scraping env terms = .ok [] := by
    simp [try_wellfound_scraping, h1, h2]
  constructor
  · simp [scrape_list_pages, scrape_list_pages_core, hw]
  · simp [scrape_list_pages, scrape_list_pages_core, hw]

/-- Witness for C4 at a concrete 403-blocked environment with a matching
secondary item. -/
theorem C4_blocked_equals_tier2_witness :
    c4_env.wf = .ok ⟨403, .error (.exn "blocked page")⟩ ∧
    (403 : Nat) = 403 ∧
    ((scrape_list_pages c4_env [] ["Data Analyst"]).1 = scrape_weworkremotely c4_env ∧
     scrape_list_pages_core c4_env [] ["Data Analyst"] =
       .ok (scrape_list_pages c4_env [] ["Data Analyst"])) :=
  ⟨rfl, rfl,
    C4_blocked_equals_tier2 c4_env [] ["Data Analyst"] ⟨403, .error (.exn "blocked page")⟩ rfl rfl⟩

/-- C5 counterexample: a compensation with BOTH salary bounds present,
the minimum being `0`, formats as `"Not specified"` rather than the
claimed `"{currency} {min:,} - {max:,}"` string (which would here be
`"USD 0 - 50,000"`): the code tests Python truthiness, so a zero bound
suppresses the range part. -/
theorem C5_counterexample :
    c5_comp.minSalary.isSome = true ∧ c5_comp.maxSalary.isSome = true ∧
    (c5_comp.currency.getD "USD") ++ " " ++ commaFmt (c5_comp.minSalary.getD 0) ++ " - " ++
      commaFmt (c5_comp.maxSalary.getD 0) = "USD 0 - 50,000" ∧
    format_salary (some c5_comp) = "Not specified" ∧
    "Not specified" ≠ "USD 0 - 50,000" := by
  decide

/-- C5 (amended): salary formatting is a pure function of
CompensationInfo matching the spec-side formula once "present" is read
as present-and-non-zero for the salary bounds: the currency range part
appears when both bounds are present and non-zero, the equity part when
an equity range (carrying both its min and max) is present, multiple
parts joined by " | ", and null/empty data yields exactly
"Not specified".  (An equity record missing one of its keys makes the
source return "Not specified" via its `except`; such records are
excluded by the well-formedness hypothesis.) -/
theorem C5_amended_format (comp : Option Compensation)
    (h : wellFormedEquity comp = true) :
    format_salary comp = format_salary_spec comp := by
  cases comp with
  | none => rfl
  | some c =>
    obtain ⟨mn, mx, cur, eqo⟩ := c
    cases eqo with
    | none =>
      cases mn with
      | none => cases mx <;> simp [format_salary, format_salary_spec, truthyNat]
      | some a =>
        cases mx with
        | none => simp [format_salary, format_salary_spec, truthyNat]
        | some b =>
          by_cases ha : a = 0
          · simp [format_salary, format_salary_spec, truthyNat, ha]
          · by_cases hb : b = 0
            · simp [format_salary, format_salary_spec, truthyNat, ha, hb]
            · simp [format_salary, format_salary_spec, truthyNat, ha, hb, joinParts]
    | some eq =>
      obtain ⟨em, eM⟩ := eq
      cases em with
      | none => simp [wellFormedEquity] at h
      | some a =>
        cases eM with
        | none => simp [wellFormedEquity] at h
        | some b =>
          cases mn with
          | none => cases mx <;> simp [format_salary, format_salary_spec, truthyNat, joinParts]
          | some a' =>
            cases mx with
            | none => simp [format_salary, format_salary_spec, truthyNat, joinParts]
            | some b' =>
              by_cases ha : a' = 0
              · simp [format_salary, format_salary_spec, truthyNat, ha, joinParts]
              · by_cases hb : b' = 0
                · simp [format_salary, format_salary_spec, truthyNat, ha, hb, joinParts]
                · simp [format_salary, format_salary_spec, truthyNat, ha, hb, joinParts]

/-- Witness for C5 (amended) at a compensation with non-zero bounds and
a full equity range. -/
theorem C5_amended_format_witness :
    wellFormedEquity (some c5w_comp) = true ∧
    format_salary (some c5w_comp) = format_salary_spec (some c5w_comp) :=
  ⟨by decide, C5_amended_format (some c5w_comp) (by decide)⟩

/-- A string of positive character count is not `isEmpty`. -/
theorem isEmpty_false_of_length_pos (t : String) (h : 0 < t.length) :
    t.isEmpty = false := by
  cases he : t.isEmpty with
  | false => rfl
  | true =>
    exfalso
    rw [String.isEmpty_iff] at he
    rw [he] at h
    simp at h

/-- A text accepted by `firstQual` exceeds 100 characters. -/
theorem firstQual_gt (probe : String → Option String) :
    ∀ (ss : List String) (t : String), firstQual probe ss = some t → 100 < t.length := by
  intro ss
  induction ss with
  | nil => intro t ht; simp [firstQual] at ht
  | cons s rest ih =>
    intro t ht
    simp only [firstQual] at ht
    cases hp : probe s with
    | none =>
      simp only [hp] at ht
      exact ih t ht
    | some u =>
      simp only [hp] at ht
      by_cases hq : 100 < u.length
      · rw [if_pos hq] at ht
        cases ht
        exact hq
      · rw [if_neg hq] at ht
        exact ih t ht

/-- When no selector qualifies, the last located text has at most 100
characters. -/
theorem lastLoc_le (probe : String → Option String) :
    ∀ (ss : List String) (t : String),
      firstQual probe ss = none → lastLoc probe ss = some t → t.length ≤ 100 := by
  intro ss
  induction ss with
  | nil => intro t _ hl; simp [lastLoc] at hl
  | cons s rest ih =>
    intro t hf hl
    simp only [firstQual] at hf
    simp only [lastLoc] at hl
    cases hp : probe s with
    | none =>
      simp only [hp] at hf hl
      cases h2 : lastLoc probe rest with
      | none =>
        simp only [h2] at hl
        exact Option.noConfusion hl
      | some u =>
        simp only [h2] at hl
        cases hl
        exact ih t hf h2
    | some u =>
      simp only [hp] at hf hl
      by_cases hq : 100 < u.length
      · rw [if_pos hq] at hf; cases hf
      · rw [if_neg hq] at hf
        cases h2 : lastLoc probe rest with
        | none =>
          simp only [h2] at hl
          cases hl
          omega
        | some v =>
          simp only [h2] at hl
          cases hl
          exact ih t hf h2

/-- The selector loop computes the first qualifying text, else the last
located text, else the accumulator. -/
theorem selectorLoop_spec (probe : String → Option String) :
    ∀ (ss : List String) (acc : Option String),
      selectorLoop probe ss acc =
        match firstQual probe ss with
        | some t => some t
        | none =>
          match lastLoc probe ss with
          | some t => some t
          | none => acc := by
  intro ss
  induction ss with
  | nil => intro acc; rfl
  | cons s rest ih =>
    intro acc
    simp only [selectorLoop, firstQual, lastLoc]
    cases hp : probe s with
    | none =>
      simp only [hp]
      rw [ih]
      cases firstQual probe rest with
      | some t => rfl
      | none => cases lastLoc probe rest <;> rfl
    | some u =>
      simp only [hp]
      by_cases hq : 100 < u.length
      · rw [if_pos hq, if_pos hq]
      · rw [if_neg hq, if_neg hq, ih]
        cases firstQual probe rest with
        | some t => rfl
        | none => cases lastLoc probe rest <;> rfl

/-- C6 counterexample: on a page where no selector text exceeds 100
characters but the last located selector text has exactly 100, the
description returned is that selector text, not the truncated body text
the claim prescribes when "no selector qualifies". -/
theorem C6_counterexample :
    scrape_url_with_selenium c6_env "https://jobs.example.org/role" = c6_hundred ∧
    firstQual c6_env.probe description_selectors = none ∧
    c6_env.body = some "SHORT BODY TEXT" ∧
    c6_hundred ≠ strTake "SHORT BODY TEXT" 2000 := by
  decide

/-- C6 (amended): the description of a rendered fetch is the text of the
first selector whose extracted text exceeds 100 characters; if none
qualifies, the body fallback (body text truncated to 2000 characters, or
the fixed marker when unavailable) is used — except that when some
selector was located and the last located selector's text is exactly 100
characters long, that text is returned instead of the fallback. -/
theorem C6_amended_selector (env : DetailEnv) (job_url : String)
    (h : env.nav = .ok ()) :
    scrape_url_with_selenium env job_url =
      match firstQual env.probe description_selectors with
      | some t => t
      | none =>
        match lastLoc env.probe description_selectors with
        | some t => if t.length = 100 then t else bodyFallback env
        | none => bodyFallback env := by
  unfold scrape_url_with_selenium
  rw [h, selectorLoop_spec]
  cases hfq : firstQual env.probe description_selectors with
  | some t =>
    have hgt := firstQual_gt env.probe description_selectors t hfq
    have hne := isEmpty_false_of_length_pos t (by omega)
    simp [hne, hgt, Nat.not_lt.mpr (by omega : 100 ≤ t.length)]
  | none =>
    cases hll : lastLoc env.probe description_selectors with
    | some t =>
      have hle := lastLoc_le env.probe description_selectors t hfq hll
      rcases Nat.lt_or_ge t.length 100 with hlt | hge
      · simp [hlt, Nat.ne_of_lt hlt]
      · have h100 : t.length = 100 := Nat.le_antisymm hle hge
        have hne := isEmpty_false_of_length_pos t (by omega)
        simp [h100, hne]
    | none => rfl

/-- Witness for C6 (amended) at a page where nothing locates: the result
is the marker-producing fallback on both sides. -/
theorem C6_amended_selector_witness :
    c6w_env.nav = .ok () ∧
    scrape_url_with_selenium c6w_env "https://jobs.example.org/other" =
      (match firstQual c6w_env.probe description_selectors with
       | some t => t
       | none =>
         match lastLoc c6w_env.probe description_selectors with
         | some t => if t.length = 100 then t else bodyFallback c6w_env
         | none => bodyFallback c6w_env) :=
  ⟨rfl, C6_amended_selector c6w_env "https://jobs.example.org/other" rfl⟩

/-- C10: a direct-listing or promoted-listing record whose nested
`highlightedJobListings` array is present but empty is normalized to
absent (the `[0]` index raises, caught as a skip), while a record whose
array key is missing entirely gets the default-valued JobRecord
(`"N/A"` title, defaulted company/location, `"Not specified"` salary). -/
theorem C10_empty_vs_missing (node : Node) :
    (node.typename = "StartupSearchResult" →
      node.self.highlightedJobListings = some [] → extract_job_data node = none) ∧
    (node.typename = "PromotedResult" →
      (node.promotedStartup.getD node.self).highlightedJobListings = some [] →
      extract_job_data node = none) ∧
    (node.typename = "StartupSearchResult" →
      node.self.highlightedJobListings = none →
      extract_job_data node = some
        { job_title := "N/A"
          company_name := node.self.name.getD "N/A"
          location := node.self.location.getD "Remote"
          salary_info := "Not specified"
          job_url := "https://wellfound.com/company/" ++ node.self.slug.getD "" ++
            "/jobs/" ++ ""
          source_site := "Wellfound" }) ∧
    (node.typename = "PromotedResult" →
      (node.promotedStartup.getD node.self).highlightedJobListings = none →
      extract_job_data node = some
        { job_title := "N/A"
          company_name := (node.promotedStartup.getD node.self).name.getD "N/A"
          location := (node.promotedStartup.getD node.self).location.getD "Remote"
          salary_info := "Not specified"
          job_url := "https://wellfound.com/company/" ++
            (node.promotedStartup.getD node.self).slug.getD "" ++ "/jobs/" ++ ""
          source_site := "Wellfound" }) := by
  refine ⟨?_, ?_, ?_, ?_⟩
  · intro h1 h2
    simp [extract_job_data, extract_job_data_core, h1, h2, listingOf]
  · intro h1 h2
    simp [extract_job_data, extract_job_data_core, h1, h2, listingOf]
  · intro h1 h2
    simp [extract_job_data, extract_job_data_core, h1, h2, listingOf, wellfoundJobOf,
      default_listing, format_salary]
  · intro h1 h2
    simp [extract_job_data, extract_job_data_core, h1, h2, listingOf, wellfoundJobOf,
      default_listing, format_salary]

/-- Witness for C10 at a concrete direct-listing node with a present but
empty listings array. -/
theorem C10_empty_vs_missing_witness :
    c10_node.typename = "StartupSearchResult" ∧
    c10_node.self.highlightedJobListings = some [] ∧
    extract_job_data c10_node = none :=
  ⟨rfl, rfl, (C10_empty_vs_missing c10_node).1 rfl rfl⟩

end JobScraping
